import Mathlib

/-!
Shallow embedding of the order-lifecycle and payment-settlement core of
`src/backend/flask_server.py` (a Flask + MongoDB canteen-ordering backend).

Conventions of the embedding:
* MongoDB ObjectIds are `Nat`; `datetime` timestamps are `Nat` (microsecond
  granularity is irrelevant, only ordering matters); money is `Int`
  (Python ints; quantities come from JSON and may be negative).
* Each HTTP handler becomes a pure function returning `Except Err _`;
  returning `Except.error` corresponds to an early `return json_response(...)`
  with a non-2xx status, in which case the handler performs no database write,
  so the order/payment state is unchanged.
* `random.randint`-generated pickup codes and transaction ids are passed in
  as explicit parameters (the caller of the model chooses them), since the
  handlers use them opaquely.
* Handlers that touch one order and its payments are modelled over a
  `SysState` holding that order and the list of payment documents whose
  `orderId` field may reference it; the `@protect` / `@authorize` decorators
  become the leading role checks of each function.
-/

/-- Order lifecycle statuses used by `flask_server.py`. -/
inductive OrderStatus where
  | CREATED
  | PAID
  | ACCEPTED
  | PREPARING
  | READY
  | COMPLETED
  | CANCELLED
  | FAILED
deriving DecidableEq

/-- Payment statuses used by `flask_server.py`. -/
inductive PaymentStatus where
  | PENDING
  | SUCCESS
  | FAILED
deriving DecidableEq

/-- User roles checked by the `@authorize` decorator and the handlers. -/
inductive Role where
  | STUDENT
  | CANTEEN
  | ADMIN
deriving DecidableEq

/-- The error outcomes of a handler: HTTP 404, 403 and 400 responses with
their message text. -/
inductive Err where
  | notFound (msg : String)
  | forbidden (msg : String)
  | badRequest (msg : String)
deriving DecidableEq

/-- The authenticated principal `g.user` installed by `@protect`:
`_id`, `role`, and the optional `canteenId` of a canteen-role account. -/
structure Caller where
  id : Nat
  role : Role
  canteenId : Option Nat
deriving DecidableEq

/-- An item snapshot embedded in an order at creation time
(the dict appended to `order_items` in `create_order`). -/
structure MenuItemRef where
  menuItem : Nat
  name : String
  price : Int
  quantity : Int
  isVeg : Bool
deriving DecidableEq

/-- An order document as written by `create_order` and updated by the
transition handlers. -/
structure Order where
  id : Nat
  userId : Nat
  canteenId : Nat
  items : List MenuItemRef
  totalAmount : Int
  isBulkOrder : Bool
  specialInstructions : String
  status : OrderStatus
  pickupCode : Option String
  pickupCodeUsed : Bool
  createdAt : Nat
  updatedAt : Nat
deriving DecidableEq

/-- A payment document as written by `initiate_payment` and updated by
`confirm_payment` / `paytm_webhook`. -/
structure Payment where
  id : Nat
  orderId : Nat
  userId : Nat
  amount : Int
  status : PaymentStatus
  transactionId : Option String
  createdAt : Nat
  updatedAt : Nat
deriving DecidableEq

/-- The state the payment handlers act on: one order document plus the
payment documents of the `payments` collection. -/
structure SysState where
  order : Order
  payments : List Payment
deriving DecidableEq

/-- `True`-ness of a handler result: `.ok` is a 2xx response. -/
def isSuccessful {α : Type} : Except Err α → Bool
  | .ok _ => true
  | .error _ => false

/-- Python `x or y` on an optional string: `None` and `""` are falsy. -/
def pyOrStr (x : Option String) (y : String) : String :=
  match x with
  | none => y
  | some s => if s = "" then y else s

/-- `accept_order` (flask_server.py:1353): `@authorize('CANTEEN','ADMIN')`,
then the canteen-ownership check, then the `status != 'PAID'` guard, then
the `$set` to ACCEPTED. -/
def accept_order (c : Caller) (o : Order) (now : Nat) : Except Err Order :=
  if ¬(c.role = Role.CANTEEN ∨ c.role = Role.ADMIN) then
    .error (.forbidden "User role is not authorized to access this route")
  else if c.role = Role.CANTEEN ∧ c.canteenId ≠ some o.canteenId then
    .error (.forbidden "Not authorized to update this order")
  else if o.status ≠ OrderStatus.PAID then
    .error (.badRequest "Only paid orders can be accepted")
  else
    .ok { o with status := OrderStatus.ACCEPTED, updatedAt := now }

/-- `prepare_order` (flask_server.py:1398): like accept, guarded on
ACCEPTED, moving to PREPARING. -/
def prepare_order (c : Caller) (o : Order) (now : Nat) : Except Err Order :=
  if ¬(c.role = Role.CANTEEN ∨ c.role = Role.ADMIN) then
    .error (.forbidden "User role is not authorized to access this route")
  else if c.role = Role.CANTEEN ∧ c.canteenId ≠ some o.canteenId then
    .error (.forbidden "Not authorized to update this order")
  else if o.status ≠ OrderStatus.ACCEPTED then
    .error (.badRequest "Only accepted orders can be marked as preparing")
  else
    .ok { o with status := OrderStatus.PREPARING, updatedAt := now }

/-- `ready_order` (flask_server.py:1443): guarded on PREPARING; sets
`pickupCode` to `order.get('pickupCode') or generate_pickup_code()` —
`newCode` stands for the freshly generated code. -/
def ready_order (c : Caller) (o : Order) (newCode : String) (now : Nat) :
    Except Err Order :=
  if ¬(c.role = Role.CANTEEN ∨ c.role = Role.ADMIN) then
    .error (.forbidden "User role is not authorized to access this route")
  else if c.role = Role.CANTEEN ∧ c.canteenId ≠ some o.canteenId then
    .error (.forbidden "Not authorized to update this order")
  else if o.status ≠ OrderStatus.PREPARING then
    .error (.badRequest "Only preparing orders can be marked as ready")
  else
    .ok { o with status := OrderStatus.READY,
                 pickupCode := some (pyOrStr o.pickupCode newCode),
                 updatedAt := now }

/-- `complete_order` (flask_server.py:1494): guarded on READY, then the
used-flag check, then the exact code comparison
`order.get('pickupCode') != pickup_code` (both may be absent);
on success one `$set` writes COMPLETED and `pickupCodeUsed: True`. -/
def complete_order (c : Caller) (o : Order) (pickup_code : Option String)
    (now : Nat) : Except Err Order :=
  if ¬(c.role = Role.CANTEEN ∨ c.role = Role.ADMIN) then
    .error (.forbidden "User role is not authorized to access this route")
  else if c.role = Role.CANTEEN ∧ c.canteenId ≠ some o.canteenId then
    .error (.forbidden "Not authorized to update this order")
  else if o.status ≠ OrderStatus.READY then
    .error (.badRequest "Only ready orders can be completed")
  else if o.pickupCodeUsed then
    .error (.badRequest "Pickup code already used")
  else if o.pickupCode ≠ pickup_code then
    .error (.badRequest "Invalid pickup code")
  else
    .ok { o with status := OrderStatus.COMPLETED,
                 pickupCodeUsed := true, updatedAt := now }

/-- `cancel_order` (flask_server.py:1551): `@protect` only (no role
restriction); students may cancel only their own orders; the only state
guard is membership of `status` in `['PREPARING', 'READY', 'COMPLETED']`. -/
def cancel_order (c : Caller) (o : Order) (now : Nat) : Except Err Order :=
  if c.role = Role.STUDENT ∧ c.id ≠ o.userId then
    .error (.forbidden "Not authorized to cancel this order")
  else if o.status = OrderStatus.PREPARING ∨ o.status = OrderStatus.READY ∨
      o.status = OrderStatus.COMPLETED then
    .error (.badRequest "Cannot cancel order at this stage")
  else
    .ok { o with status := OrderStatus.CANCELLED, updatedAt := now }

/-- A payment is "active" when its status is PENDING or SUCCESS — the
`{'$in': ['PENDING', 'SUCCESS']}` filter of `initiate_payment`. -/
def isActivePayment (p : Payment) : Bool :=
  p.status = PaymentStatus.PENDING ∨ p.status = PaymentStatus.SUCCESS

/-- Mongo `update_one`: rewrite the first document matching `pred` with `f`,
leave all others untouched. -/
def updateFirst {α : Type} (pred : α → Bool) (f : α → α) : List α → List α
  | [] => []
  | x :: xs => if pred x then f x :: xs else x :: updateFirst pred f xs

/-- `initiate_payment` (flask_server.py:1601): ownership check on the order
(all roles), the `status != 'CREATED'` guard, the duplicate-payment guard
(`find_one` on the order's id with an active status), then insertion of a
PENDING payment whose amount is copied from `order['totalAmount']`.
`pid` stands for the Mongo-generated `_id` of the new payment. -/
def initiate_payment (c : Caller) (pid : Nat) (now : Nat) (s : SysState) :
    Except Err SysState :=
  if s.order.userId ≠ c.id then
    .error (.forbidden "Not authorized to pay for this order")
  else if s.order.status ≠ OrderStatus.CREATED then
    .error (.badRequest "Order is not in a payable state")
  else if (s.payments.find? fun p =>
      p.orderId = s.order.id ∧ isActivePayment p).isSome then
    .error (.badRequest "Payment already initiated for this order")
  else
    .ok { s with payments := s.payments ++
      [{ id := pid, orderId := s.order.id, userId := c.id,
         amount := s.order.totalAmount, status := PaymentStatus.PENDING,
         transactionId := none, createdAt := now, updatedAt := now }] }

/-- `confirm_payment` (flask_server.py:1679): looks the payment up by id,
checks ownership, requires PENDING, marks it SUCCESS with a generated
transaction id, then unconditionally `$set`s the payment's order to PAID
with a freshly generated pickup code (`newCode`). The order `update_one`
filter is `{'_id': payment['orderId']}`, so the order document changes only
when that id is the state's order. -/
def confirm_payment (c : Caller) (pid : Nat) (txn : String) (newCode : String)
    (now : Nat) (s : SysState) : Except Err SysState :=
  match s.payments.find? (fun p => p.id = pid) with
  | none => .error (.notFound "Payment not found")
  | some payment =>
    if payment.userId ≠ c.id then
      .error (.forbidden "Not authorized")
    else if payment.status ≠ PaymentStatus.PENDING then
      .error (.badRequest "Payment is not in pending state")
    else
      .ok { order :=
              if payment.orderId = s.order.id then
                { s.order with status := OrderStatus.PAID,
                               pickupCode := some newCode, updatedAt := now }
              else s.order,
            payments := updateFirst (fun p => p.id = payment.id)
              (fun p => { p with status := PaymentStatus.SUCCESS,
                                 transactionId := some txn,
                                 updatedAt := now }) s.payments }

/-- `paytm_webhook` (flask_server.py:1746): unauthenticated; finds the
payment by the request's `orderId`, maps `'TXN_SUCCESS'` to SUCCESS and
anything else to FAILED, rewrites the payment, then rewrites the order —
to PAID with a freshly generated pickup code on SUCCESS, to FAILED
otherwise — with no check of the payment's or the order's prior state. -/
def paytm_webhook (oid : Nat) (providerStatus : String) (txn : Option String)
    (newCode : String) (now : Nat) (s : SysState) : Except Err SysState :=
  match s.payments.find? (fun p => p.orderId = oid) with
  | none => .error (.notFound "Payment not found")
  | some payment =>
    let newStatus := if providerStatus = "TXN_SUCCESS" then
      PaymentStatus.SUCCESS else PaymentStatus.FAILED
    .ok { order :=
            if oid = s.order.id then
              if newStatus = PaymentStatus.SUCCESS then
                { s.order with status := OrderStatus.PAID,
                               pickupCode := some newCode, updatedAt := now }
              else
                { s.order with status := OrderStatus.FAILED,
                               updatedAt := now }
            else s.order,
          payments := updateFirst (fun p => p.id = payment.id)
            (fun p => { p with status := newStatus, transactionId := txn,
                               updatedAt := now }) s.payments }

/-- A line item of the `create_order` request body
(`{'menuItem': <id>, 'quantity': <int>}`). -/
structure OrderItemReq where
  menuItem : Nat
  quantity : Int
deriving DecidableEq

/-- A `menuitems` document as read by `create_order`. -/
structure MenuItem where
  id : Nat
  canteenId : Nat
  name : String
  price : Int
  isAvailable : Bool
  isVeg : Bool
deriving DecidableEq

/-- A `canteens` document as read by `create_order`. -/
structure Canteen where
  id : Nat
  isOpen : Bool
  isOnlineOrdersEnabled : Bool
  maxBulkSize : Int
deriving DecidableEq

/-- The item loop of `create_order` (flask_server.py:931): walks the
requested items in order, failing on the first missing, unavailable or
cross-canteen item; accumulates the snapshot list, the running
`total_amount` and `total_quantity`. -/
def build_order_items (menuitems : List MenuItem) (canteenId : Nat) :
    List OrderItemReq → List MenuItemRef → Int → Int →
    Except Err (List MenuItemRef × Int × Int)
  | [], acc, total_amount, total_quantity =>
    .ok (acc, total_amount, total_quantity)
  | item :: rest, acc, total_amount, total_quantity =>
    match menuitems.find? (fun m => m.id = item.menuItem) with
    | none => .error (.notFound "Menu item not found")
    | some menu_item =>
      if ¬menu_item.isAvailable then
        .error (.badRequest "Item is currently unavailable")
      else if menu_item.canteenId ≠ canteenId then
        .error (.badRequest "Item does not belong to this canteen")
      else
        build_order_items menuitems canteenId rest
          (acc ++ [{ menuItem := item.menuItem, name := menu_item.name,
                     price := menu_item.price, quantity := item.quantity,
                     isVeg := menu_item.isVeg }])
          (total_amount + menu_item.price * item.quantity)
          (total_quantity + item.quantity)

/-- `create_order` (flask_server.py:893): canteen existence / `isOpen` /
`isOnlineOrdersEnabled` guards, then the item loop, the bulk check against
`maxBulkSize` (source default 50, carried in the document here), and the
insertion of the CREATED order with a null, unused pickup code. The request
body contributes only `canteenId`, `items` and `specialInstructions`; no
client-supplied total is read. `oid` stands for the Mongo-generated id. -/
def create_order (userId : Nat) (oid : Nat) (canteens : List Canteen)
    (menuitems : List MenuItem) (canteenId : Nat) (items : List OrderItemReq)
    (specialInstructions : String) (now : Nat) : Except Err Order :=
  match canteens.find? (fun cn => cn.id = canteenId) with
  | none => .error (.notFound "Canteen not found")
  | some canteen =>
    if ¬canteen.isOpen then
      .error (.badRequest "Canteen is currently closed")
    else if ¬canteen.isOnlineOrdersEnabled then
      .error (.badRequest "Online orders are currently disabled for this canteen")
    else
      match build_order_items menuitems canteenId items [] 0 0 with
      | .error e => .error e
      | .ok (order_items, total_amount, total_quantity) =>
        .ok { id := oid, userId := userId, canteenId := canteenId,
              items := order_items, totalAmount := total_amount,
              isBulkOrder := total_quantity > canteen.maxBulkSize,
              specialInstructions := specialInstructions,
              status := OrderStatus.CREATED, pickupCode := none,
              pickupCodeUsed := false, createdAt := now, updatedAt := now }

/-- The daily-earnings aggregation of `get_canteen_completed_orders`
(flask_server.py:1171): sum of `totalAmount` over orders of the canteen
with status COMPLETED and `updatedAt` in the inclusive interval
`[start_of_day, end_of_day]` (the source's `$gte`/`$lte` bounds, with
`end_of_day` the last representable instant of the day). -/
def daily_earnings (orders : List Order) (canteenId : Nat)
    (start_of_day end_of_day : Nat) : Int :=
  ((orders.filter fun o =>
      o.canteenId = canteenId ∧ o.status = OrderStatus.COMPLETED ∧
      start_of_day ≤ o.updatedAt ∧ o.updatedAt ≤ end_of_day).map
    (fun o => o.totalAmount)).sum

/-- The monthly-earnings aggregation of `get_canteen_completed_orders`:
sum of `totalAmount` over COMPLETED orders of the canteen with
`updatedAt >= start_of_month` — the source places no upper bound. -/
def monthly_earnings (orders : List Order) (canteenId : Nat)
    (start_of_month : Nat) : Int :=
  ((orders.filter fun o =>
      o.canteenId = canteenId ∧ o.status = OrderStatus.COMPLETED ∧
      start_of_month ≤ o.updatedAt).map (fun o => o.totalAmount)).sum

/-- Written from the spec's words, for comparison with the aggregation
functions above: the sum of `totalAmount` over exactly those COMPLETED
orders of the canteen whose `updatedAt` falls within the calendar window
starting at `wstart` and lasting `wlen` time units. -/
def spec_window_total (orders : List Order) (canteenId : Nat)
    (wstart wlen : Nat) : Int :=
  ((orders.filter fun o =>
      o.canteenId = canteenId ∧ o.status = OrderStatus.COMPLETED ∧
      wstart ≤ o.updatedAt ∧ o.updatedAt < wstart + wlen).map
    (fun o => o.totalAmount)).sum

deriving instance DecidableEq for Except

/-! ### Characterization lemmas for the handlers -/

theorem accept_order_ok {c : Caller} {o : Order} {now : Nat} {o' : Order}
    (h : accept_order c o now = .ok o') :
    o.status = OrderStatus.PAID ∧
    o' = { o with status := OrderStatus.ACCEPTED, updatedAt := now } := by
  unfold accept_order at h
  split_ifs at h with h1 h2 h3
  cases h
  exact ⟨not_not.mp h3, rfl⟩

theorem prepare_order_ok {c : Caller} {o : Order} {now : Nat} {o' : Order}
    (h : prepare_order c o now = .ok o') :
    o.status = OrderStatus.ACCEPTED ∧
    o' = { o with status := OrderStatus.PREPARING, updatedAt := now } := by
  unfold prepare_order at h
  split_ifs at h with h1 h2 h3
  cases h
  exact ⟨not_not.mp h3, rfl⟩

theorem ready_order_ok {c : Caller} {o : Order} {newCode : String} {now : Nat}
    {o' : Order} (h : ready_order c o newCode now = .ok o') :
    o.status = OrderStatus.PREPARING ∧
    o' = { o with status := OrderStatus.READY,
                  pickupCode := some (pyOrStr o.pickupCode newCode),
                  updatedAt := now } := by
  unfold ready_order at h
  split_ifs at h with h1 h2 h3
  cases h
  exact ⟨not_not.mp h3, rfl⟩

theorem complete_order_ok {c : Caller} {o : Order} {pickup_code : Option String}
    {now : Nat} {o' : Order} (h : complete_order c o pickup_code now = .ok o') :
    o.status = OrderStatus.READY ∧ o.pickupCodeUsed = false ∧
    o.pickupCode = pickup_code ∧
    o' = { o with status := OrderStatus.COMPLETED,
                  pickupCodeUsed := true, updatedAt := now } := by
  unfold complete_order at h
  split_ifs at h with h1 h2 h3 h4 h5
  cases h
  exact ⟨not_not.mp h3, by simpa using h4, not_not.mp h5, rfl⟩

theorem cancel_order_ok {c : Caller} {o : Order} {now : Nat} {o' : Order}
    (h : cancel_order c o now = .ok o') :
    (o.status ≠ OrderStatus.PREPARING ∧ o.status ≠ OrderStatus.READY ∧
     o.status ≠ OrderStatus.COMPLETED) ∧
    o' = { o with status := OrderStatus.CANCELLED, updatedAt := now } := by
  unfold cancel_order at h
  split_ifs at h with h1 h2
  cases h
  push_neg at h2
  exact ⟨h2, rfl⟩

theorem updateFirst_length {α : Type} (pred : α → Bool) (f : α → α) :
    ∀ l : List α, (updateFirst pred f l).length = l.length := by
  intro l
  induction l with
  | nil => rfl
  | cons x xs ih =>
    unfold updateFirst
    split_ifs <;> simp [ih]

theorem mem_updateFirst {α : Type} {pred : α → Bool} {f : α → α}
    {l : List α} {q : α} (h : q ∈ updateFirst pred f l) :
    q ∈ l ∨ ∃ r ∈ l, pred r = true ∧ q = f r := by
  induction l with
  | nil => exact absurd h (List.not_mem_nil q)
  | cons x xs ih =>
    unfold updateFirst at h
    split_ifs at h with hp
    · rcases List.mem_cons.mp h with h1 | h1
      · exact Or.inr ⟨x, List.mem_cons_self x xs, hp, h1⟩
      · exact Or.inl (List.mem_cons_of_mem x h1)
    · rcases List.mem_cons.mp h with h1 | h1
      · exact Or.inl (h1 ▸ List.mem_cons_self x xs)
      · rcases ih h1 with h2 | ⟨r, hr, hpr, hq⟩
        · exact Or.inl (List.mem_cons_of_mem x h2)
        · exact Or.inr ⟨r, List.mem_cons_of_mem x hr, hpr, hq⟩

theorem initiate_payment_ok {c : Caller} {pid now : Nat} {s s' : SysState}
    (h : initiate_payment c pid now s = .ok s') :
    s.order.userId = c.id ∧ s.order.status = OrderStatus.CREATED ∧
    (∀ p ∈ s.payments, p.orderId = s.order.id → isActivePayment p = false) ∧
    s'.order = s.order ∧
    s'.payments = s.payments ++
      [{ id := pid, orderId := s.order.id, userId := c.id,
         amount := s.order.totalAmount, status := PaymentStatus.PENDING,
         transactionId := none, createdAt := now, updatedAt := now }] := by
  unfold initiate_payment at h
  split_ifs at h with h1 h2 h3
  cases h
  refine ⟨not_not.mp h1, not_not.mp h2, ?_, rfl, rfl⟩
  intro p hp hpo
  have hnp := List.find?_eq_none.mp (Option.not_isSome_iff_eq_none.mp h3) p hp
  simp only [decide_eq_true_eq, not_and] at hnp
  exact Bool.eq_false_iff.mpr (hnp hpo)

theorem confirm_payment_ok {c : Caller} {pid : Nat} {txn newCode : String}
    {now : Nat} {s s' : SysState}
    (h : confirm_payment c pid txn newCode now s = .ok s') :
    ∃ payment, s.payments.find? (fun p => p.id = pid) = some payment ∧
      payment.userId = c.id ∧ payment.status = PaymentStatus.PENDING ∧
      s'.payments = updateFirst (fun p => p.id = payment.id)
        (fun p => { p with status := PaymentStatus.SUCCESS,
                           transactionId := some txn, updatedAt := now })
        s.payments ∧
      s'.order = (if payment.orderId = s.order.id then
          { s.order with status := OrderStatus.PAID,
                         pickupCode := some newCode, updatedAt := now }
        else s.order) := by
  unfold confirm_payment at h
  cases hfind : s.payments.find? (fun p => p.id = pid) with
  | none => rw [hfind] at h; cases h
  | some payment =>
    rw [hfind] at h
    dsimp only at h
    split_ifs at h with h1 h2 h3
    · cases h
      exact ⟨payment, rfl, not_not.mp h1, not_not.mp h2, rfl,
        by rw [if_pos h3]⟩
    · cases h
      exact ⟨payment, rfl, not_not.mp h1, not_not.mp h2, rfl,
        by rw [if_neg h3]⟩

theorem paytm_webhook_ok {oid : Nat} {providerStatus : String}
    {txn : Option String} {newCode : String} {now : Nat} {s s' : SysState}
    (h : paytm_webhook oid providerStatus txn newCode now s = .ok s') :
    ∃ payment, s.payments.find? (fun p => p.orderId = oid) = some payment ∧
      s'.payments = updateFirst (fun p => p.id = payment.id)
        (fun p => { p with
          status := if providerStatus = "TXN_SUCCESS" then
            PaymentStatus.SUCCESS else PaymentStatus.FAILED,
          transactionId := txn, updatedAt := now }) s.payments ∧
      s'.order = (if oid = s.order.id then
          if providerStatus = "TXN_SUCCESS" then
            { s.order with status := OrderStatus.PAID,
                           pickupCode := some newCode, updatedAt := now }
          else { s.order with status := OrderStatus.FAILED, updatedAt := now }
        else s.order) := by
  unfold paytm_webhook at h
  cases hfind : s.payments.find? (fun p => p.orderId = oid) with
  | none => rw [hfind] at h; cases h
  | some payment =>
    rw [hfind] at h
    dsimp only at h
    have h' := Except.ok.inj h
    refine ⟨payment, rfl, ?_, ?_⟩
    · rw [← h']
    · rw [← h']
      by_cases hps : providerStatus = "TXN_SUCCESS" <;>
        by_cases hoid : oid = s.order.id <;> simp [hps, hoid]

/-! ### The per-order transition system -/

/-- One successful (2xx) request touching the state: any of the five order
transitions, a payment initiation, a caller-driven confirmation, or a
provider webhook. A failed request returns early without a database write
and so does not change the state. -/
inductive Step : SysState → SysState → Prop where
  | accept (c : Caller) (now : Nat) (s : SysState) (o' : Order)
      (h : accept_order c s.order now = .ok o') :
      Step s { order := o', payments := s.payments }
  | prepare (c : Caller) (now : Nat) (s : SysState) (o' : Order)
      (h : prepare_order c s.order now = .ok o') :
      Step s { order := o', payments := s.payments }
  | ready (c : Caller) (newCode : String) (now : Nat) (s : SysState)
      (o' : Order) (h : ready_order c s.order newCode now = .ok o') :
      Step s { order := o', payments := s.payments }
  | complete (c : Caller) (pickup_code : Option String) (now : Nat)
      (s : SysState) (o' : Order)
      (h : complete_order c s.order pickup_code now = .ok o') :
      Step s { order := o', payments := s.payments }
  | cancel (c : Caller) (now : Nat) (s : SysState) (o' : Order)
      (h : cancel_order c s.order now = .ok o') :
      Step s { order := o', payments := s.payments }
  | initiate (c : Caller) (pid now : Nat) (s s' : SysState)
      (h : initiate_payment c pid now s = .ok s') : Step s s'
  | confirm (c : Caller) (pid : Nat) (txn newCode : String) (now : Nat)
      (s s' : SysState)
      (h : confirm_payment c pid txn newCode now s = .ok s') : Step s s'
  | webhook (oid : Nat) (providerStatus : String) (txn : Option String)
      (newCode : String) (now : Nat) (s s' : SysState)
      (h : paytm_webhook oid providerStatus txn newCode now s = .ok s') :
      Step s s'

/-- The states an order's record can be in over its lifetime: the document
as `create_order` persisted it (no payments yet), closed under successful
requests. -/
inductive Reachable : SysState → Prop where
  | init (userId oid : Nat) (canteens : List Canteen)
      (menuitems : List MenuItem) (canteenId : Nat)
      (items : List OrderItemReq) (specialInstructions : String) (now : Nat)
      (o : Order)
      (h : create_order userId oid canteens menuitems canteenId items
        specialInstructions now = .ok o) :
      Reachable { order := o, payments := [] }
  | step (s s' : SysState) (hr : Reachable s) (hs : Step s s') : Reachable s'

/-- The payment-collection invariant: the order has at most one payment
document in total; every payment references the order; and once a payment
has FAILED the order is no longer CREATED, so `initiate_payment`'s
`status == 'CREATED'` guard blocks any further initiation. -/
def payments_ok (s : SysState) : Prop :=
  s.payments.length ≤ 1 ∧
  (∀ p ∈ s.payments, p.orderId = s.order.id) ∧
  (∀ p ∈ s.payments, p.status = PaymentStatus.FAILED →
     s.order.status ≠ OrderStatus.CREATED)

theorem reachable_payments_ok {s : SysState} (h : Reachable s) :
    payments_ok s := by
  induction h with
  | init userId oid canteens menuitems canteenId items instr now o hc =>
    exact ⟨by simp, by simp, by simp⟩
  | step s s' hr hs ih =>
    obtain ⟨ih1, ih2, ih3⟩ := ih
    cases hs with
    | accept c now _ o' hok =>
      obtain ⟨hst, ho'⟩ := accept_order_ok hok
      subst ho'
      exact ⟨ih1, fun p hp => ih2 p hp, fun p hp hf => by simp⟩
    | prepare c now _ o' hok =>
      obtain ⟨hst, ho'⟩ := prepare_order_ok hok
      subst ho'
      exact ⟨ih1, fun p hp => ih2 p hp, fun p hp hf => by simp⟩
    | ready c newCode now _ o' hok =>
      obtain ⟨hst, ho'⟩ := ready_order_ok hok
      subst ho'
      exact ⟨ih1, fun p hp => ih2 p hp, fun p hp hf => by simp⟩
    | complete c pickup_code now _ o' hok =>
      obtain ⟨hst, _, _, ho'⟩ := complete_order_ok hok
      subst ho'
      exact ⟨ih1, fun p hp => ih2 p hp, fun p hp hf => by simp⟩
    | cancel c now _ o' hok =>
      obtain ⟨hst, ho'⟩ := cancel_order_ok hok
      subst ho'
      exact ⟨ih1, fun p hp => ih2 p hp, fun p hp hf => by simp⟩
    | initiate c pid now _ s' hok =>
      obtain ⟨huid, hst, hnoact, hord, hpay⟩ := initiate_payment_ok hok
      have hnil : s.payments = [] := by
        cases hl : s.payments with
        | nil => rfl
        | cons p rest =>
          exfalso
          have hp : p ∈ s.payments := by
            rw [hl]; exact List.mem_cons_self p rest
          have hact := hnoact p hp (ih2 p hp)
          have hfail : p.status = PaymentStatus.FAILED := by
            unfold isActivePayment at hact
            cases hps : p.status <;> rw [hps] at hact <;> simp at hact
          exact ih3 p hp hfail hst
      refine ⟨?_, ?_, ?_⟩
      · rw [hpay, hnil]; simp
      · intro p hp
        rw [hpay, hnil] at hp
        simp at hp
        rw [hp, hord]
      · intro p hp hf
        rw [hpay, hnil] at hp
        simp at hp
        rw [hp] at hf
        cases hf
    | confirm c pid txn newCode now _ s' hok =>
      obtain ⟨payment, hfind, hup, hpend, hpay, hord⟩ := confirm_payment_ok hok
      have hpm : payment ∈ s.payments := List.mem_of_find?_eq_some hfind
      rw [if_pos (ih2 payment hpm)] at hord
      refine ⟨?_, ?_, ?_⟩
      · rw [hpay, updateFirst_length]; exact ih1
      · intro p hp
        rw [hpay] at hp
        rcases mem_updateFirst hp with h1 | ⟨r, hr, _, hq⟩
        · rw [hord]; exact ih2 p h1
        · rw [hord, hq]; exact ih2 r hr
      · intro p hp hf
        rw [hord]; simp
    | webhook oid providerStatus txn newCode now _ s' hok =>
      obtain ⟨payment, hfind, hpay, hord⟩ := paytm_webhook_ok hok
      have hpm : payment ∈ s.payments := List.mem_of_find?_eq_some hfind
      have hpr := List.find?_some hfind
      simp only [decide_eq_true_eq] at hpr
      have hoid : oid = s.order.id := by rw [← hpr]; exact ih2 payment hpm
      rw [if_pos hoid] at hord
      refine ⟨?_, ?_, ?_⟩
      · rw [hpay, updateFirst_length]; exact ih1
      · intro p hp
        rw [hpay] at hp
        rcases mem_updateFirst hp with h1 | ⟨r, hr, _, hq⟩
        · by_cases hps : providerStatus = "TXN_SUCCESS"
          · rw [hord, if_pos hps]; exact ih2 p h1
          · rw [hord, if_neg hps]; exact ih2 p h1
        · by_cases hps : providerStatus = "TXN_SUCCESS"
          · rw [hord, if_pos hps, hq]; exact ih2 r hr
          · rw [hord, if_neg hps, hq]; exact ih2 r hr
      · intro p hp hf
        by_cases hps : providerStatus = "TXN_SUCCESS"
        · rw [hord, if_pos hps]; simp
        · rw [hord, if_neg hps]; simp

/-! ### Claim C5 -/

/-- C5: for every order, at every reachable state, at most one payment with
status PENDING or SUCCESS exists for it (in fact the invariant
`payments_ok` shows at most one payment document in total), and while a
PENDING/SUCCESS payment exists any further `initiate_payment` call is
rejected. Settlement operations only rewrite the existing payment document
(see `confirm_payment` / `paytm_webhook`), so no operation creates a second
active payment. -/
theorem c5_at_most_one_active_payment (s : SysState) (hreach : Reachable s)
    (c : Caller) (pid now : Nat) :
    (s.payments.filter isActivePayment).length ≤ 1 ∧
    ((∃ p ∈ s.payments, isActivePayment p = true) →
      isSuccessful (initiate_payment c pid now s) = false) := by
  obtain ⟨ih1, ih2, _⟩ := reachable_payments_ok hreach
  refine ⟨le_trans (List.length_filter_le _ _) ih1, ?_⟩
  rintro ⟨p, hp, hact⟩
  unfold initiate_payment
  split_ifs with h1 h2 h3
  · rfl
  · rfl
  · rfl
  · exfalso
    have hnone := Option.not_isSome_iff_eq_none.mp h3
    have hnp := List.find?_eq_none.mp hnone p hp
    simp only [decide_eq_true_eq, not_and] at hnp
    exact hnp (ih2 p hp) hact

/-- An open canteen used to build concrete reachable states. -/
def wCanteen : Canteen :=
  { id := 1, isOpen := true, isOnlineOrdersEnabled := true, maxBulkSize := 50 }

/-- An available menu item of `wCanteen`. -/
def wMenuItem : MenuItem :=
  { id := 1, canteenId := 1, name := "Samosa", price := 10,
    isAvailable := true, isVeg := true }

/-- The order `create_order 7 100 [wCanteen] [wMenuItem] 1 [⟨1, 2⟩] "" 0`
persists. -/
def wOrder : Order :=
  { id := 100, userId := 7, canteenId := 1,
    items := [{ menuItem := 1, name := "Samosa", price := 10, quantity := 2,
                isVeg := true }],
    totalAmount := 20, isBulkOrder := false, specialInstructions := "",
    status := OrderStatus.CREATED, pickupCode := none,
    pickupCodeUsed := false, createdAt := 0, updatedAt := 0 }

/-- The student who placed `wOrder`. -/
def wStudent : Caller := { id := 7, role := Role.STUDENT, canteenId := none }

/-- The PENDING payment `initiate_payment wStudent 500 1` inserts for
`wOrder`. -/
def wPayment : Payment :=
  { id := 500, orderId := 100, userId := 7, amount := 20,
    status := PaymentStatus.PENDING, transactionId := none,
    createdAt := 1, updatedAt := 1 }

/-- `wOrder` with its pending payment. -/
def wState : SysState := { order := wOrder, payments := [wPayment] }

theorem wState_reachable : Reachable wState :=
  Reachable.step { order := wOrder, payments := [] } wState
    (Reachable.init 7 100 [wCanteen] [wMenuItem] 1
      [{ menuItem := 1, quantity := 2 }] "" 0 wOrder (by decide))
    (Step.initiate wStudent 500 1 { order := wOrder, payments := [] } wState
      (by decide))

/-- Witness for C5 at the concrete reachable state `wState`, which holds a
PENDING payment: a second initiation is rejected. -/
theorem c5_at_most_one_active_payment_witness :
    isSuccessful (initiate_payment wStudent 501 2 wState) = false :=
  (c5_at_most_one_active_payment wState wState_reachable wStudent 501 2).2
    ⟨wPayment, by decide, by decide⟩

/-! ### Claim C1 -/

/-- The canteen staff account of `wCanteen`. -/
def wCanteenStaff : Caller :=
  { id := 9, role := Role.CANTEEN, canteenId := some 1 }

/-- `wOrder` after its payment is confirmed (PAID, pickup code issued). -/
def cOrder2 : Order :=
  { wOrder with status := OrderStatus.PAID, pickupCode := some "111111",
                updatedAt := 2 }

/-- `wPayment` after confirmation (SUCCESS, transaction id issued). -/
def cPayment2 : Payment :=
  { wPayment with status := PaymentStatus.SUCCESS,
                  transactionId := some "TXN1", updatedAt := 2 }

/-- State after `confirm_payment`. -/
def cState2 : SysState := { order := cOrder2, payments := [cPayment2] }

/-- State after `accept_order`. -/
def cState3 : SysState :=
  { order := { cOrder2 with status := OrderStatus.ACCEPTED, updatedAt := 3 },
    payments := [cPayment2] }

/-- State after `prepare_order`. -/
def cState4 : SysState :=
  { order := { cOrder2 with status := OrderStatus.PREPARING, updatedAt := 4 },
    payments := [cPayment2] }

/-- State after `ready_order` (the existing code "111111" is reused). -/
def cState5 : SysState :=
  { order := { cOrder2 with status := OrderStatus.READY, updatedAt := 5 },
    payments := [cPayment2] }

/-- State after `complete_order` with the correct code: the order is in the
terminal status COMPLETED and its pickup code is marked used. -/
def cState6 : SysState :=
  { order := { cOrder2 with status := OrderStatus.COMPLETED,
                            pickupCodeUsed := true, updatedAt := 6 },
    payments := [cPayment2] }

theorem cState2_reachable : Reachable cState2 :=
  Reachable.step wState cState2 wState_reachable
    (Step.confirm wStudent 500 "TXN1" "111111" 2 wState cState2 (by decide))

/-- The full happy path create → initiate → confirm → accept → prepare →
ready → complete is a run of the system. -/
theorem cState6_reachable : Reachable cState6 :=
  Reachable.step cState5 cState6
    (Reachable.step cState4 cState5
      (Reachable.step cState3 cState4
        (Reachable.step cState2 cState3 cState2_reachable
          (Step.accept wCanteenStaff 3 cState2 cState3.order (by decide)))
        (Step.prepare wCanteenStaff 4 cState3 cState4.order (by decide)))
      (Step.ready wCanteenStaff "999999" 5 cState4 cState5.order (by decide)))
    (Step.complete wCanteenStaff (some "111111") 6 cState5 cState6.order
      (by decide))

/-- Counterexample to C1 as stated: `cState6` is reachable and its order is
in the terminal status COMPLETED, yet a (redelivered) success webhook is
accepted and moves the order back to PAID — an operation does move an
order out of a terminal state. -/
theorem c1_counterexample :
    Reachable cState6 ∧ cState6.order.status = OrderStatus.COMPLETED ∧
    (paytm_webhook 100 "TXN_SUCCESS" (some "TXN2") "222222" 7 cState6).map
      (fun t => t.order.status) = Except.ok OrderStatus.PAID :=
  ⟨cState6_reachable, by decide, by decide⟩

/-- C1 amended: the four staff transitions accept/prepare/ready/complete
each require exactly the preceding status and advance it one step along
CREATED → PAID → ACCEPTED → PREPARING → READY → COMPLETED, and cancel moves
to CANCELLED exactly from statuses outside {PREPARING, READY, COMPLETED}
(hence also from the terminal CANCELLED and FAILED); but payment
confirmation of any PENDING payment sets the order to PAID, and a provider
webhook sets it to PAID (success) or FAILED (failure), each regardless of
the order's current status — so those operations do not respect
monotonicity or terminal states. -/
theorem c1_forward_transitions :
    (∀ (c : Caller) (o : Order) (now : Nat) (o' : Order),
      accept_order c o now = .ok o' →
      o.status = OrderStatus.PAID ∧ o'.status = OrderStatus.ACCEPTED) ∧
    (∀ (c : Caller) (o : Order) (now : Nat) (o' : Order),
      prepare_order c o now = .ok o' →
      o.status = OrderStatus.ACCEPTED ∧ o'.status = OrderStatus.PREPARING) ∧
    (∀ (c : Caller) (o : Order) (code : String) (now : Nat) (o' : Order),
      ready_order c o code now = .ok o' →
      o.status = OrderStatus.PREPARING ∧ o'.status = OrderStatus.READY) ∧
    (∀ (c : Caller) (o : Order) (code : Option String) (now : Nat)
      (o' : Order),
      complete_order c o code now = .ok o' →
      o.status = OrderStatus.READY ∧ o'.status = OrderStatus.COMPLETED) ∧
    (∀ (c : Caller) (o : Order) (now : Nat) (o' : Order),
      cancel_order c o now = .ok o' →
      (o.status ≠ OrderStatus.PREPARING ∧ o.status ≠ OrderStatus.READY ∧
       o.status ≠ OrderStatus.COMPLETED) ∧
      o'.status = OrderStatus.CANCELLED) ∧
    (∀ (c : Caller) (pid : Nat) (txn code : String) (now : Nat)
      (s s' : SysState),
      confirm_payment c pid txn code now s = .ok s' →
      (∀ p ∈ s.payments, p.orderId = s.order.id) →
      s'.order.status = OrderStatus.PAID) ∧
    (∀ (oid : Nat) (txn : Option String) (code : String) (now : Nat)
      (s s' : SysState),
      paytm_webhook oid "TXN_SUCCESS" txn code now s = .ok s' →
      oid = s.order.id → s'.order.status = OrderStatus.PAID) ∧
    (∀ (oid : Nat) (ps : String) (txn : Option String) (code : String)
      (now : Nat) (s s' : SysState),
      ps ≠ "TXN_SUCCESS" → paytm_webhook oid ps txn code now s = .ok s' →
      oid = s.order.id → s'.order.status = OrderStatus.FAILED) := by
  refine ⟨?_, ?_, ?_, ?_, ?_, ?_, ?_, ?_⟩
  · intro c o now o' h
    exact ⟨(accept_order_ok h).1, by rw [(accept_order_ok h).2]⟩
  · intro c o now o' h
    exact ⟨(prepare_order_ok h).1, by rw [(prepare_order_ok h).2]⟩
  · intro c o code now o' h
    exact ⟨(ready_order_ok h).1, by rw [(ready_order_ok h).2]⟩
  · intro c o code now o' h
    exact ⟨(complete_order_ok h).1, by rw [(complete_order_ok h).2.2.2]⟩
  · intro c o now o' h
    exact ⟨(cancel_order_ok h).1, by rw [(cancel_order_ok h).2]⟩
  · intro c pid txn code now s s' h hall
    obtain ⟨payment, hfind, _, _, _, hord⟩ := confirm_payment_ok h
    rw [hord, if_pos (hall payment (List.mem_of_find?_eq_some hfind))]
  · intro oid txn code now s s' h hoid
    obtain ⟨payment, hfind, hpay, hord⟩ := paytm_webhook_ok h
    rw [hord, if_pos hoid, if_pos (rfl : "TXN_SUCCESS" = "TXN_SUCCESS")]
  · intro oid ps txn code now s s' hps h hoid
    obtain ⟨payment, hfind, hpay, hord⟩ := paytm_webhook_ok h
    rw [hord, if_pos hoid, if_neg hps]

/-- Witness for C1-amended at a concrete successful accept transition. -/
theorem c1_forward_transitions_witness :
    cState2.order.status = OrderStatus.PAID ∧
    cState3.order.status = OrderStatus.ACCEPTED :=
  c1_forward_transitions.1 wCanteenStaff cState2.order 3 cState3.order
    (by decide)

/-! ### Claim C2 -/

/-- C2: for a caller that passes the role and canteen-ownership checks,
`complete_order` succeeds iff the order is READY, its pickup code is
unused, and the supplied code equals the stored one exactly; on success the
same update sets COMPLETED and the used flag, and a repeated call with the
same code on the resulting order fails. -/
theorem c2_complete_iff (c : Caller) (o : Order) (code : Option String)
    (now : Nat)
    (hrole : c.role = Role.CANTEEN ∨ c.role = Role.ADMIN)
    (hown : c.role = Role.CANTEEN → c.canteenId = some o.canteenId) :
    (isSuccessful (complete_order c o code now) = true ↔
      (o.status = OrderStatus.READY ∧ o.pickupCodeUsed = false ∧
       code = o.pickupCode)) ∧
    (∀ o', complete_order c o code now = .ok o' →
      o'.status = OrderStatus.COMPLETED ∧ o'.pickupCodeUsed = true ∧
      ∀ now2, isSuccessful (complete_order c o' code now2) = false) := by
  constructor
  · constructor
    · intro hs
      cases hcall : complete_order c o code now with
      | error e => rw [hcall] at hs; cases hs
      | ok o' =>
        obtain ⟨h1, h2, h3, _⟩ := complete_order_ok hcall
        exact ⟨h1, h2, h3.symm⟩
    · rintro ⟨h1, h2, h3⟩
      unfold complete_order
      split_ifs with g1 g2 g3 g4
      · exact absurd (hown g1.1) g1.2
      · exact absurd h1 g2
      · rw [h2] at g3; cases g3
      · exact absurd h3.symm g4
      · rfl
  · intro o' h
    obtain ⟨h1, h2, h3, ho'⟩ := complete_order_ok h
    subst ho'
    refine ⟨rfl, rfl, ?_⟩
    intro now2
    cases hcall : complete_order c
        { o with status := OrderStatus.COMPLETED, pickupCodeUsed := true,
                 updatedAt := now } code now2 with
    | error e => rfl
    | ok o2 => exact absurd (complete_order_ok hcall).1 (by simp)

/-- Witness for C2: the happy-path completion at `cState5` succeeds. -/
theorem c2_complete_iff_witness :
    isSuccessful (complete_order wCanteenStaff cState5.order
      (some "111111") 6) = true :=
  (c2_complete_iff wCanteenStaff cState5.order (some "111111") 6
    (Or.inl rfl) (by decide)).1.mpr (by decide)

/-! ### Claim C3 -/

/-- `wOrder` after the student cancels it while still CREATED. -/
def dCancelled : Order :=
  { wOrder with status := OrderStatus.CANCELLED, updatedAt := 1 }

theorem wOrder_reachable : Reachable { order := wOrder, payments := [] } :=
  Reachable.init 7 100 [wCanteen] [wMenuItem] 1
    [{ menuItem := 1, quantity := 2 }] "" 0 wOrder (by decide)

theorem dCancelled_reachable :
    Reachable { order := dCancelled, payments := [] } :=
  Reachable.step { order := wOrder, payments := [] }
    { order := dCancelled, payments := [] } wOrder_reachable
    (Step.cancel wStudent 1 { order := wOrder, payments := [] } dCancelled
      (by decide))

/-- Counterexample to C3 as stated: `dCancelled` is a reachable order in
the terminal status CANCELLED, yet cancelling it again succeeds — the
guard only rejects PREPARING, READY and COMPLETED. -/
theorem c3_counterexample :
    Reachable { order := dCancelled, payments := [] } ∧
    dCancelled.status = OrderStatus.CANCELLED ∧
    isSuccessful (cancel_order wStudent dCancelled 2) = true :=
  ⟨dCancelled_reachable, by decide, by decide⟩

/-- C3 amended: for an authorized caller, cancellation succeeds exactly
when the status is none of PREPARING, READY, COMPLETED — so it succeeds
for CREATED, PAID and ACCEPTED, but also for the terminal statuses
CANCELLED and FAILED — and on success the only change is the status
becoming CANCELLED (plus the `updatedAt` timestamp); on failure nothing
is written. -/
theorem c3_cancel_iff (c : Caller) (o : Order) (now : Nat)
    (hauth : c.role = Role.STUDENT → c.id = o.userId) :
    (isSuccessful (cancel_order c o now) = true ↔
      (o.status ≠ OrderStatus.PREPARING ∧ o.status ≠ OrderStatus.READY ∧
       o.status ≠ OrderStatus.COMPLETED)) ∧
    (∀ o', cancel_order c o now = .ok o' →
      o' = { o with status := OrderStatus.CANCELLED, updatedAt := now }) := by
  constructor
  · constructor
    · intro hs
      cases hcall : cancel_order c o now with
      | error e => rw [hcall] at hs; cases hs
      | ok o' => exact (cancel_order_ok hcall).1
    · rintro ⟨h1, h2, h3⟩
      unfold cancel_order
      split_ifs with g1 g2
      · exact absurd (hauth g1.1) g1.2
      · rcases g2 with g | g | g
        · exact absurd g h1
        · exact absurd g h2
        · exact absurd g h3
      · rfl
  · intro o' h
    exact (cancel_order_ok h).2

/-- Witness for C3-amended: cancelling the PAID order `cOrder2` succeeds. -/
theorem c3_cancel_iff_witness :
    isSuccessful (cancel_order wStudent cOrder2 3) = true :=
  (c3_cancel_iff wStudent cOrder2 3 (by decide)).1.mpr (by decide)

/-! ### Claim C4 -/

/-- Staff of a different canteen (id 2) than `wOrder`'s canteen (id 1). -/
def otherCanteenStaff : Caller :=
  { id := 12, role := Role.CANTEEN, canteenId := some 2 }

/-- Counterexample to C4 as stated: `cancel_order` is a mutating
transition, yet a CANTEEN caller assigned to a different canteen than the
order's is not rejected — the handler has no canteen-ownership check, only
the student-ownership check, so the foreign staff member cancels the
CREATED order successfully. -/
theorem c4_counterexample :
    otherCanteenStaff.role = Role.CANTEEN ∧
    otherCanteenStaff.canteenId ≠ some wOrder.canteenId ∧
    isSuccessful (cancel_order otherCanteenStaff wOrder 1) = true :=
  ⟨rfl, by decide, by decide⟩

/-- C4 amended: for accept, prepare, ready and complete, a CANTEEN caller
whose assigned canteen differs from the order's is rejected with the
Forbidden ownership error (and, the functions being early returns, nothing
is written), and an ADMIN caller is never rejected by the role or
ownership checks — any failure is an invalid-state rejection; but
`cancel_order` performs no canteen-ownership check at all: a CANTEEN
caller of a different canteen can cancel any cancellable order. -/
theorem c4_canteen_ownership :
    (∀ (c : Caller) (o : Order) (now : Nat),
      c.role = Role.CANTEEN → c.canteenId ≠ some o.canteenId →
      accept_order c o now =
        .error (.forbidden "Not authorized to update this order") ∧
      prepare_order c o now =
        .error (.forbidden "Not authorized to update this order") ∧
      (∀ code, ready_order c o code now =
        .error (.forbidden "Not authorized to update this order")) ∧
      (∀ code, complete_order c o code now =
        .error (.forbidden "Not authorized to update this order"))) ∧
    (∀ (c : Caller) (o : Order) (now : Nat), c.role = Role.ADMIN →
      (∀ e, accept_order c o now = .error e → ∃ m, e = Err.badRequest m) ∧
      (∀ e, prepare_order c o now = .error e → ∃ m, e = Err.badRequest m) ∧
      (∀ code e, ready_order c o code now = .error e →
        ∃ m, e = Err.badRequest m) ∧
      (∀ code e, complete_order c o code now = .error e →
        ∃ m, e = Err.badRequest m) ∧
      (∀ e, cancel_order c o now = .error e → ∃ m, e = Err.badRequest m)) ∧
    (∀ (c : Caller) (o : Order) (now : Nat),
      c.role = Role.CANTEEN → c.canteenId ≠ some o.canteenId →
      o.status = OrderStatus.CREATED →
      isSuccessful (cancel_order c o now) = true) := by
  refine ⟨?_, ?_, ?_⟩
  · intro c o now hc hne
    refine ⟨?_, ?_, fun code => ?_, fun code => ?_⟩
    · unfold accept_order
      rw [if_neg (by simp [hc]), if_pos ⟨hc, hne⟩]
    · unfold prepare_order
      rw [if_neg (by simp [hc]), if_pos ⟨hc, hne⟩]
    · unfold ready_order
      rw [if_neg (by simp [hc]), if_pos ⟨hc, hne⟩]
    · unfold complete_order
      rw [if_neg (by simp [hc]), if_pos ⟨hc, hne⟩]
  · intro c o now hadm
    refine ⟨?_, ?_, ?_, ?_, ?_⟩
    · intro e h
      unfold accept_order at h
      split_ifs at h with g1 g2 g3
      · rw [hadm] at g2; exact absurd g2.1 (by decide)
      · exact ⟨_, (Except.error.inj h).symm⟩
      · exact absurd (Or.inr hadm) g1
    · intro e h
      unfold prepare_order at h
      split_ifs at h with g1 g2 g3
      · rw [hadm] at g2; exact absurd g2.1 (by decide)
      · exact ⟨_, (Except.error.inj h).symm⟩
      · exact absurd (Or.inr hadm) g1
    · intro code e h
      unfold ready_order at h
      split_ifs at h with g1 g2 g3
      · rw [hadm] at g2; exact absurd g2.1 (by decide)
      · exact ⟨_, (Except.error.inj h).symm⟩
      · exact absurd (Or.inr hadm) g1
    · intro code e h
      unfold complete_order at h
      split_ifs at h with g1 g2 g3 g4 g5
      · rw [hadm] at g2; exact absurd g2.1 (by decide)
      · exact ⟨_, (Except.error.inj h).symm⟩
      · exact ⟨_, (Except.error.inj h).symm⟩
      · exact ⟨_, (Except.error.inj h).symm⟩
      · exact absurd (Or.inr hadm) g1
    · intro e h
      unfold cancel_order at h
      split_ifs at h with g1 g2
      · rw [hadm] at g1; exact absurd g1.1 (by decide)
      · exact ⟨_, (Except.error.inj h).symm⟩
  · intro c o now hc hne hcr
    unfold cancel_order
    rw [if_neg (by simp [hc]), if_neg (by simp [hcr])]
    rfl

/-- Witness for C4-amended: the foreign staff member cannot accept
`wOrder`'s canteen's order. -/
theorem c4_canteen_ownership_witness :
    accept_order otherCanteenStaff wOrder 1 =
      .error (.forbidden "Not authorized to update this order") :=
  (c4_canteen_ownership.1 otherCanteenStaff wOrder 1 rfl (by decide)).1

/-! ### Claim C6 -/

/-- Counterexample to C6 as stated: `cState2` is a reachable state whose
order already holds the pickup code "111111" (assigned at the CREATED →
PAID confirmation), yet a redelivered success webhook overwrites it with
the freshly generated "222222" instead of leaving it unchanged. -/
theorem c6_counterexample :
    Reachable cState2 ∧ cState2.order.pickupCode = some "111111" ∧
    (paytm_webhook 100 "TXN_SUCCESS" (some "TXN2") "222222" 3 cState2).map
      (fun t => t.order.pickupCode) = Except.ok (some "222222") :=
  ⟨cState2_reachable, by decide, by decide⟩

/-- C6 amended: `ready_order` does reuse an existing (nonempty) pickup
code, but both `confirm_payment` (on a PENDING payment) and a success
webhook unconditionally overwrite the stored pickup code with the freshly
generated one — the code is regenerated by every settlement-success
operation rather than generated at most once. -/
theorem c6_code_regeneration :
    (∀ (c : Caller) (o : Order) (pc newCode : String) (now : Nat)
      (o' : Order),
      o.pickupCode = some pc → pc ≠ "" →
      ready_order c o newCode now = .ok o' → o'.pickupCode = some pc) ∧
    (∀ (c : Caller) (pid : Nat) (txn newCode : String) (now : Nat)
      (s s' : SysState),
      confirm_payment c pid txn newCode now s = .ok s' →
      (∀ p ∈ s.payments, p.orderId = s.order.id) →
      s'.order.pickupCode = some newCode) ∧
    (∀ (oid : Nat) (txn : Option String) (newCode : String) (now : Nat)
      (s s' : SysState),
      paytm_webhook oid "TXN_SUCCESS" txn newCode now s = .ok s' →
      oid = s.order.id → s'.order.pickupCode = some newCode) := by
  refine ⟨?_, ?_, ?_⟩
  · intro c o pc newCode now o' hpc hne h
    rw [(ready_order_ok h).2]
    show some (pyOrStr o.pickupCode newCode) = some pc
    rw [hpc]
    show some (if pc = "" then newCode else pc) = some pc
    rw [if_neg hne]
  · intro c pid txn newCode now s s' h hall
    obtain ⟨payment, hfind, _, _, _, hord⟩ := confirm_payment_ok h
    rw [hord, if_pos (hall payment (List.mem_of_find?_eq_some hfind))]
  · intro oid txn newCode now s s' h hoid
    obtain ⟨payment, hfind, hpay, hord⟩ := paytm_webhook_ok h
    rw [hord, if_pos hoid, if_pos (rfl : "TXN_SUCCESS" = "TXN_SUCCESS")]

/-- Witness for C6-amended: the ready transition from `cState4` reuses the
stored code "111111" even though "999999" was freshly generated. -/
theorem c6_code_regeneration_witness :
    cState5.order.pickupCode = some "111111" :=
  c6_code_regeneration.1 wCanteenStaff cState4.order "111111" "999999" 5
    cState5.order (by decide) (by decide) (by decide)

/-! ### Claim C7 -/

/-- C7: on any order that already carries a (nonempty, as every generated
code is) pickup code, a successful `ready_order` stores exactly the same
code — for any freshly generated `newCode` — and a second `ready_order`
call on the result fails (the order is no longer PREPARING), writing
nothing; so repeated ready calls never regenerate an existing code. -/
theorem c7_ready_idempotent (c c2 : Caller) (o : Order)
    (pc newCode newCode2 : String) (now now2 : Nat)
    (hpc : o.pickupCode = some pc) (hne : pc ≠ "") :
    ∀ o', ready_order c o newCode now = .ok o' →
      o'.pickupCode = some pc ∧
      isSuccessful (ready_order c2 o' newCode2 now2) = false := by
  intro o' h
  obtain ⟨hst, ho'⟩ := ready_order_ok h
  constructor
  · rw [ho']
    show some (pyOrStr o.pickupCode newCode) = some pc
    rw [hpc]
    show some (if pc = "" then newCode else pc) = some pc
    rw [if_neg hne]
  · subst ho'
    cases hcall : ready_order c2
        { o with status := OrderStatus.READY,
                 pickupCode := some (pyOrStr o.pickupCode newCode),
                 updatedAt := now } newCode2 now2 with
    | error e => rfl
    | ok o2 => exact absurd (ready_order_ok hcall).1 (by simp)

/-- Witness for C7: readying `cState4` (code "111111" already stored)
keeps "111111" and a repeated ready call fails. -/
theorem c7_ready_idempotent_witness :
    cState5.order.pickupCode = some "111111" ∧
    isSuccessful (ready_order wCanteenStaff cState5.order "888888" 7)
      = false :=
  c7_ready_idempotent wCanteenStaff wCanteenStaff cState4.order "111111"
    "999999" "888888" 5 7 (by decide) (by decide) cState5.order (by decide)

/-! ### Claim C8 -/

/-- The sum of `price × quantity` over a list of stored item snapshots. -/
def items_total (l : List MenuItemRef) : Int :=
  (l.map (fun r => r.price * r.quantity)).sum

theorem build_order_items_spec (menuitems : List MenuItem) (canteenId : Nat) :
    ∀ (reqs : List OrderItemReq) (acc : List MenuItemRef) (ta tq : Int)
      (res : List MenuItemRef × Int × Int),
      build_order_items menuitems canteenId reqs acc ta tq = .ok res →
      ∃ newRefs, res.1 = acc ++ newRefs ∧
        res.2.1 = ta + items_total newRefs := by
  intro reqs
  induction reqs with
  | nil =>
    intro acc ta tq res h
    unfold build_order_items at h
    cases h
    exact ⟨[], by simp, by simp [items_total]⟩
  | cons item rest ih =>
    intro acc ta tq res h
    unfold build_order_items at h
    cases hfind : menuitems.find? (fun m => m.id = item.menuItem) with
    | none => rw [hfind] at h; cases h
    | some menu_item =>
      rw [hfind] at h
      dsimp only at h
      split_ifs at h with h1 h2
      obtain ⟨newRefs, hres, hta⟩ := ih _ _ _ _ h
      refine ⟨{ menuItem := item.menuItem, name := menu_item.name,
                price := menu_item.price, quantity := item.quantity,
                isVeg := menu_item.isVeg } :: newRefs, ?_, ?_⟩
      · rw [hres]; simp
      · rw [hta]; simp [items_total]; ring

/-- C8: whatever order `create_order` persists has a `totalAmount` equal to
the sum of `price × quantity` over its stored item snapshots, the prices
being the looked-up menu items' prices. The request body contributes only
the item ids and quantities (`create_order` reads no client-supplied
total, as its argument list shows), so no client total can influence the
stored amount. -/
theorem c8_total_is_item_sum (userId oid : Nat) (canteens : List Canteen)
    (menuitems : List MenuItem) (canteenId : Nat) (items : List OrderItemReq)
    (instr : String) (now : Nat) (o : Order)
    (h : create_order userId oid canteens menuitems canteenId items instr now
      = .ok o) :
    o.totalAmount = items_total o.items := by
  unfold create_order at h
  cases hcn : canteens.find? (fun cn => cn.id = canteenId) with
  | none => rw [hcn] at h; cases h
  | some canteen =>
    rw [hcn] at h
    dsimp only at h
    split_ifs at h with h1 h2
    cases hb : build_order_items menuitems canteenId items [] 0 0 with
    | error e => rw [hb] at h; cases h
    | ok res =>
      rw [hb] at h
      obtain ⟨newRefs, hres, hta⟩ :=
        build_order_items_spec menuitems canteenId items [] 0 0 res hb
      cases h
      show res.2.1 = items_total res.1
      rw [hta, hres]
      simp [items_total]

/-- Witness for C8: the persisted `wOrder` satisfies the snapshot-sum
equation. -/
theorem c8_total_is_item_sum_witness :
    wOrder.totalAmount = items_total wOrder.items :=
  c8_total_is_item_sum 7 100 [wCanteen] [wMenuItem] 1
    [{ menuItem := 1, quantity := 2 }] "" 0 wOrder (by decide)

/-! ### Claim C9 -/

/-- C9: with the day window `[sod, sod + dlen)` (the source's inclusive
`end_of_day` bound being the last instant `sod + dlen - 1` of the day) and
the month window `[som, som + mlen)` containing the current instant `now`,
and given that no stored order carries a future `updatedAt` (every handler
stamps `updatedAt` with the current time), the aggregation pipelines of
`get_canteen_completed_orders` compute exactly the spec's windowed sums
over COMPLETED orders of the canteen: orders in any other status or with
`updatedAt` outside the window contribute nothing. -/
theorem c9_earnings (orders : List Order) (canteenId : Nat)
    (sod dlen som mlen now : Nat) (hd : 1 ≤ dlen)
    (hts : ∀ o ∈ orders, o.updatedAt ≤ now) (hnow : now < som + mlen) :
    daily_earnings orders canteenId sod (sod + dlen - 1) =
      spec_window_total orders canteenId sod dlen ∧
    monthly_earnings orders canteenId som =
      spec_window_total orders canteenId som mlen := by
  constructor
  · unfold daily_earnings spec_window_total
    rw [List.filter_congr (fun o ho => ?_)]
    have harith : (o.updatedAt ≤ sod + dlen - 1) ↔
        (o.updatedAt < sod + dlen) := by omega
    apply decide_eq_decide.mpr
    exact ⟨fun ⟨a, b, d, e⟩ => ⟨a, b, d, harith.mp e⟩,
      fun ⟨a, b, d, e⟩ => ⟨a, b, d, harith.mpr e⟩⟩
  · unfold monthly_earnings spec_window_total
    rw [List.filter_congr (fun o ho => ?_)]
    have hlt : o.updatedAt < som + mlen := lt_of_le_of_lt (hts o ho) hnow
    apply decide_eq_decide.mpr
    exact ⟨fun ⟨a, b, d⟩ => ⟨a, b, d, hlt⟩, fun ⟨a, b, d, _⟩ => ⟨a, b, d⟩⟩

/-- Witness for C9 on a one-order store holding the completed `cState6`
order (`updatedAt = 6`). -/
theorem c9_earnings_witness :
    daily_earnings [cState6.order] 1 0 (0 + 10 - 1) =
      spec_window_total [cState6.order] 1 0 10 ∧
    monthly_earnings [cState6.order] 1 0 =
      spec_window_total [cState6.order] 1 0 100 :=
  c9_earnings [cState6.order] 1 0 10 0 100 50 (by decide) (by decide)
    (by decide)

/-! ### Claim C10 -/

/-- A second available menu item of `wCanteen`. -/
def wMenuItem2 : MenuItem :=
  { id := 2, canteenId := 1, name := "Chai", price := 30,
    isAvailable := true, isVeg := true }

/-- C10: `create_order` never validates quantities. With the same catalog,
an order of item 1 with quantity 2 totals 20; adding a line item with
quantity −3 of the 30-priced item 2 is accepted with status CREATED and
the negative quantity lowers the total to −70; a single line item with
quantity −2 yields a CREATED order with the negative total −20. -/
theorem c10_no_quantity_validation :
    ((create_order 7 41 [wCanteen] [wMenuItem, wMenuItem2] 1
        [{ menuItem := 1, quantity := 2 }] "" 0).map
      (fun o => o.totalAmount) = Except.ok (20 : Int)) ∧
    ((create_order 7 42 [wCanteen] [wMenuItem, wMenuItem2] 1
        [{ menuItem := 1, quantity := 2 }, { menuItem := 2, quantity := -3 }]
        "" 0).map
      (fun o => (o.status, o.totalAmount)) =
        Except.ok (OrderStatus.CREATED, (-70 : Int))) ∧
    ((create_order 7 43 [wCanteen] [wMenuItem] 1
        [{ menuItem := 1, quantity := -2 }] "" 0).map
      (fun o => (o.status, o.totalAmount)) =
        Except.ok (OrderStatus.CREATED, (-20 : Int))) ∧
    (-70 : Int) < 20 ∧ (-20 : Int) < 0 := by decide
